import Mathlib

/-!
# Verification of the memc-rs storage engine (src/src/memcache/storage.rs)

A shallow embedding of the cache engine: `Header`, `Record`, `Storage` and the
operations `get`, `set`, `add`, `replace`, `append`, `prepend`,
`increment` / `decrement` (via `add_delta`), `delete` and `flush`, translated
line by line from `src/src/memcache/storage.rs`.

Modelling conventions:
* Machine integers (`u64`, `u32`) are `Nat`; wherever the Rust code performs
  arithmetic that can wrap (release semantics of `+=` and `fetch_add`), the
  embedding takes the result `% 2^64` explicitly.
* The `DashMap<Vec<u8>, Record>` is embedded as an association list
  `List (Key × Record)`; `mapGet` / `mapInsert` / `mapRemove` mirror
  `get`/`get_mut`, `insert` (replace-or-insert) and `remove`.  A `DashMap`
  never holds two bindings for one key, which appears as a `Nodup` hypothesis
  where a theorem needs it.
* The `timer::Timer` collaborator (its file is not under `src/`) is, per the
  spec, a clock returning monotone seconds; every engine operation reads it at
  most once, so it is embedded as an explicit `now : Nat` argument.
* Each Rust method returning `StorageResult<T>` becomes a Lean function
  returning `Except StorageError T × Storage`, threading the (otherwise
  interior-mutable) state explicitly.
-/

/-- Modelled from the spec: `StorageError` lives in `src/src/memcache/error.rs`,
which is not included under `src/`; §7 of the spec lists exactly three error
kinds, matching the three variants `storage.rs` uses
(`NotFound`, `KeyExists`, `ArithOnNonNumeric`). -/
inductive StorageError where
  | NotFound
  | KeyExists
  | ArithOnNonNumeric
deriving DecidableEq

/-- `Header` (storage.rs lines 8-14): `timestamp: u64`, `cas: u64`,
`flags: u32`, `expiration: u32`, all embedded as `Nat`. -/
structure Header where
  timestamp : Nat
  cas : Nat
  flags : Nat
  expiration : Nat
deriving DecidableEq

/-- `Header::new` (storage.rs lines 17-24): the timestamp is set to `0`,
the other fields come from the caller. -/
def Header.new (cas flags expiration : Nat) : Header :=
  { timestamp := 0, cas := cas, flags := flags, expiration := expiration }

/-- `Record` (storage.rs lines 27-31): a header and a value byte vector. -/
structure Record where
  header : Header
  value : List Nat
deriving DecidableEq

/-- `Record::new` (storage.rs lines 33-38). -/
def Record.new (value : List Nat) (cas flags expiration : Nat) : Record :=
  { header := Header.new cas flags expiration, value := value }

/-- `DeltaParam` (storage.rs lines 46-50): `delta: u64`, `value: u64`. -/
structure DeltaParam where
  delta : Nat
  value : Nat
deriving DecidableEq

/-- `SetStatus` (storage.rs lines 59-62). -/
structure SetStatus where
  cas : Nat
deriving DecidableEq

/-- Keys are byte vectors (`Vec<u8>`), compared byte-exactly. -/
abbrev Key := List Nat

/-- Lookup in the embedded map: `DashMap::get` / `get_mut` (first binding). -/
def mapGet : List (Key × Record) → Key → Option Record
  | [], _ => none
  | (k', r) :: rest, k => if k' = k then some r else mapGet rest k

/-- `DashMap::insert` and assignment through `get_mut`: replace the binding
for the key if present, otherwise add one. -/
def mapInsert : List (Key × Record) → Key → Record → List (Key × Record)
  | [], k, r => [(k, r)]
  | (k', r') :: rest, k, r =>
    if k' = k then (k, r) :: rest else (k', r') :: mapInsert rest k r

/-- `DashMap::remove` / a successful `remove_if`: drop the binding for the key. -/
def mapRemove : List (Key × Record) → Key → List (Key × Record)
  | [], _ => []
  | (k', r') :: rest, k =>
    if k' = k then rest else (k', r') :: mapRemove rest k

/-- The keys of the embedded map, used to state the `DashMap` no-duplicates
invariant. -/
def mapKeys (m : List (Key × Record)) : List Key := m.map Prod.fst

/-- `Storage` (storage.rs lines 54-58): the map and the `cas_id: AtomicU64`
counter.  The timer is passed to each operation as `now`. -/
structure Storage where
  memory : List (Key × Record)
  cas_id : Nat
deriving DecidableEq

/-- `Storage::new` (storage.rs lines 65-71): empty map, counter starts at 1. -/
def Storage.empty : Storage := { memory := [], cas_id := 1 }

/-- `Storage::check_if_expired` (storage.rs lines 95-109), the boolean part:
a record with `expiration == 0` never expires; otherwise it is expired when
`timestamp + expiration <= now` (u64 addition, hence `% 2^64`).  The removal
side effect of the Rust function is performed by `get_by_key` below. -/
def checkIfExpired (now : Nat) (r : Record) : Bool :=
  if r.header.expiration = 0 then false
  else if (r.header.timestamp + r.header.expiration) % 2 ^ 64 > now then false
  else true

/-- `Storage::get_by_key` (storage.rs lines 78-93): look the key up; a present
but expired record is removed from the map (the removal inside
`check_if_expired`, lines 105-108) and reported as `NotFound`. -/
def Storage.get_by_key (st : Storage) (now : Nat) (k : Key) :
    Except StorageError Record × Storage :=
  match mapGet st.memory k with
  | none => (Except.error StorageError.NotFound, st)
  | some r =>
    if checkIfExpired now r then
      (Except.error StorageError.NotFound, { st with memory := mapRemove st.memory k })
    else
      (Except.ok r, st)

/-- `Storage::get` (storage.rs lines 73-76): logging aside, exactly
`get_by_key`. -/
def Storage.get (st : Storage) (now : Nat) (k : Key) :
    Except StorageError Record × Storage :=
  st.get_by_key now k

/-- `Storage::touch_record` (storage.rs lines 111-113): reads the timer and
discards the result; the record is not modified. -/
def touch_record (r : Record) : Record := r

/-- `Storage::get_cas_id` (storage.rs lines 148-150): `fetch_add(1)` on the
counter, returning the previous value; a `u64` fetch_add wraps. -/
def Storage.get_cas_id (st : Storage) : Nat × Storage :=
  (st.cas_id, { st with cas_id := (st.cas_id + 1) % 2 ^ 64 })

/-- `Storage::set` (storage.rs lines 118-146).  With a nonzero client `cas`:
look the key up; on a stored-cas mismatch fail with `KeyExists`; on a match,
or when the key is absent, store the record with `cas` bumped to
`supplied + 1` (the `record.header.cas += 1` on lines 127 and 134 — not a
draw from the sequencer).  With client `cas == 0`: draw a fresh id from
`get_cas_id` and upsert unconditionally. -/
def Storage.set (st : Storage) (k : Key) (r : Record) :
    Except StorageError SetStatus × Storage :=
  if r.header.cas > 0 then
    match mapGet st.memory k with
    | some kv =>
      if kv.header.cas ≠ r.header.cas then
        (Except.error StorageError.KeyExists, st)
      else
        let newCas := (r.header.cas + 1) % 2 ^ 64
        (Except.ok { cas := newCas },
         { st with memory :=
            mapInsert st.memory k { r with header := { r.header with cas := newCas } } })
    | none =>
      let newCas := (r.header.cas + 1) % 2 ^ 64
      (Except.ok { cas := newCas },
       { st with memory :=
          mapInsert st.memory k { r with header := { r.header with cas := newCas } } })
  else
    let drawn := st.get_cas_id
    let cas := drawn.1
    let st' := drawn.2
    (Except.ok { cas := cas },
     { st' with memory :=
        mapInsert st'.memory k { r with header := { r.header with cas := cas } } })

/-- `Storage::add` (storage.rs lines 152-157): `KeyExists` if `get_by_key`
finds a live record, otherwise `set` (on the possibly-evicted state). -/
def Storage.add (st : Storage) (now : Nat) (k : Key) (r : Record) :
    Except StorageError SetStatus × Storage :=
  match st.get_by_key now k with
  | (Except.ok _, st') => (Except.error StorageError.KeyExists, st')
  | (Except.error _, st') => st'.set k r

/-- `Storage::replace` (storage.rs lines 159-164). -/
def Storage.replace (st : Storage) (now : Nat) (k : Key) (r : Record) :
    Except StorageError SetStatus × Storage :=
  match st.get_by_key now k with
  | (Except.ok _, st') => st'.set k r
  | (Except.error _, st') => (Except.error StorageError.NotFound, st')

/-- `Storage::append` (storage.rs lines 166-176): keep the stored record's
header with the new record's `cas`, concatenate old value ++ new value,
commit via `set`. -/
def Storage.append (st : Storage) (now : Nat) (k : Key) (newR : Record) :
    Except StorageError SetStatus × Storage :=
  match st.get_by_key now k with
  | (Except.ok record, st') =>
    st'.set k
      { record with
        header := { record.header with cas := newR.header.cas },
        value := record.value ++ newR.value }
  | (Except.error _, st') => (Except.error StorageError.NotFound, st')

/-- `Storage::prepend` (storage.rs lines 178-190): value is new ++ old, the
header is the stored one with the new record's `cas`, commit via `set`. -/
def Storage.prepend (st : Storage) (now : Nat) (k : Key) (newR : Record) :
    Except StorageError SetStatus × Storage :=
  match st.get_by_key now k with
  | (Except.ok record, st') =>
    st'.set k
      { header := { record.header with cas := newR.header.cas },
        value := newR.value ++ record.value }
  | (Except.error _, st') => (Except.error StorageError.NotFound, st')

/-- A decimal digit byte, ASCII `'0'..'9'`. -/
def isDigitByte (b : Nat) : Bool := 48 ≤ b && b ≤ 57

/-- `str::from_utf8` followed by `str::parse::<u64>` (storage.rs lines
219-223), composed into one byte-level parser.  Rust's `u64` parser accepts an
optional leading `'+'` and then one or more ASCII digits, and fails on
overflow past `u64::MAX`; any byte sequence rejected here is rejected by the
Rust pair of steps as well (a non-ASCII byte is never a digit), and both
failures are mapped to `ArithOnNonNumeric` by the source. -/
def parse_u64 (bytes : List Nat) : Option Nat :=
  let digits := match bytes with
    | 43 :: rest => rest
    | other => other
  if digits.isEmpty then none
  else if digits.all isDigitByte then
    let v := digits.foldl (fun acc b => acc * 10 + (b - 48)) 0
    if v < 2 ^ 64 then some v else none
  else none

/-- Decimal digits of `n`, most significant first, as ASCII bytes; the `fuel`
argument makes the recursion structural and is always sufficient at
`fuel = n + 1`. -/
def natToDigitsCore : Nat → Nat → List Nat → List Nat
  | 0, _, acc => acc
  | fuel + 1, n, acc =>
    if n < 10 then (n % 10 + 48) :: acc
    else natToDigitsCore fuel (n / 10) ((n % 10 + 48) :: acc)

/-- `u64::to_string().as_bytes()` (storage.rs lines 232 and 245): the decimal
text of `n` as bytes. -/
def natToDigitBytes (n : Nat) : List Nat := natToDigitsCore (n + 1) n []

/-- `Storage::add_delta` (storage.rs lines 210-255).  On a live record: parse
its value as decimal `u64` (else `ArithOnNonNumeric`); increment adds the
delta (u64 wrap), decrement saturates at 0; the new value is re-encoded as
decimal text, the caller's header is assigned, and the result committed via
`set`.  On a missing/expired key: with the `0xffffffff` sentinel expiration
fail with `NotFound`; otherwise auto-create
`Record::new(delta.value.to_string(), header.cas, header.flags, 0)`
and commit via `set`. -/
def Storage.add_delta (st : Storage) (now : Nat) (header : Header) (k : Key)
    (delta : DeltaParam) (increment : Bool) :
    Except StorageError SetStatus × Storage :=
  match st.get_by_key now k with
  | (Except.ok record, st') =>
    match parse_u64 record.value with
    | some v =>
      let v' :=
        if increment then (v + delta.delta) % 2 ^ 64
        else if delta.delta > v then 0
        else v - delta.delta
      st'.set k { header := header, value := natToDigitBytes v' }
    | none => (Except.error StorageError.ArithOnNonNumeric, st')
  | (Except.error _, st') =>
    if header.expiration ≠ 0xffffffff then
      st'.set k (Record.new (natToDigitBytes delta.value) header.cas header.flags 0)
    else
      (Except.error StorageError.NotFound, st')

/-- `Storage::increment` (storage.rs lines 192-199). -/
def Storage.increment (st : Storage) (now : Nat) (header : Header) (k : Key)
    (delta : DeltaParam) : Except StorageError SetStatus × Storage :=
  st.add_delta now header k delta true

/-- `Storage::decrement` (storage.rs lines 201-208). -/
def Storage.decrement (st : Storage) (now : Nat) (header : Header) (k : Key)
    (delta : DeltaParam) : Except StorageError SetStatus × Storage :=
  st.add_delta now header k delta false

/-- `Storage::delete` (storage.rs lines 257-270): `remove_if` with the
predicate `header.cas == 0 || stored.cas == header.cas`; if the key is
present and the predicate holds the entry is removed and the call succeeds;
present with the predicate false is `KeyExists` (the `cas_match` side
channel was written); absent is `NotFound` (the predicate never ran). -/
def Storage.delete (st : Storage) (k : Key) (header : Header) :
    Except StorageError Unit × Storage :=
  match mapGet st.memory k with
  | some record =>
    if header.cas = 0 ∨ record.header.cas = header.cas then
      (Except.ok (), { st with memory := mapRemove st.memory k })
    else
      (Except.error StorageError.KeyExists, st)
  | none => (Except.error StorageError.NotFound, st)

/-- `Storage::flush` (storage.rs lines 272-277): `alter_all`, overwriting
every entry's `expiration` with the header's and touching nothing else. -/
def Storage.flush (st : Storage) (header : Header) : Storage :=
  { st with memory :=
      st.memory.map fun kv =>
        (kv.1, { kv.2 with header := { kv.2.header with expiration := header.expiration } }) }

/-- The record that the auto-create path of `add_delta` (storage.rs lines
244-249) ends up storing when `set` assigns it the cas `c`: value is the
decimal text of the delta's initial value, flags come from the caller's
header, expiration is reset to 0, timestamp is 0 as in every `Record::new`. -/
def autoCreatedRecord (hdr : Header) (d : DeltaParam) (c : Nat) : Record :=
  { header := { timestamp := 0, cas := c, flags := hdr.flags, expiration := 0 },
    value := natToDigitBytes d.value }

/-- The first half of the conditional-`set` code path (storage.rs line 122):
the `memory.get_mut(&key)` lookup.  When it returns `None` the per-key lock it
held is released; the code's own comment (storage.rs lines 114-117) records
that what follows is *not* atomic with this check:
"FIXME: Make it atomic operation based on CAS, now there is a race between
check_cas and insert". -/
def condSetCheck (st : Storage) (k : Key) : Option Record := mapGet st.memory k

/-- The second half of the conditional-`set` code path on an absent key
(storage.rs lines 133-138): a separate `memory.insert` of the record with
`cas + 1`, reported as success.  Between `condSetCheck` and this step another
thread's insert can be interleaved. -/
def condSetCommitAbsent (st : Storage) (k : Key) (r : Record) : SetStatus × Storage :=
  let newCas := (r.header.cas + 1) % 2 ^ 64
  ({ cas := newCas },
   { st with memory := mapInsert st.memory k { r with header := { r.header with cas := newCas } } })

example : (Storage.empty.set [107] (Record.new [65] 0 0 0)).1
    = Except.ok { cas := 1 } := rfl

example : (Storage.empty.set [107] (Record.new [65] 5 0 0)).1
    = Except.ok { cas := 6 } := rfl

example : parse_u64 [53] = some 5 := rfl

example : natToDigitBytes 105 = [49, 48, 53] := rfl

example : parse_u64 (natToDigitBytes (2 ^ 64 - 1)) = some (2 ^ 64 - 1) := by decide

/-! ## Map lemmas -/

theorem mapGet_mapInsert_self : ∀ (m : List (Key × Record)) (k : Key) (r : Record),
    mapGet (mapInsert m k r) k = some r
  | [], k, r => by simp [mapInsert, mapGet]
  | (k', r') :: rest, k, r => by
    by_cases hk : k' = k
    · simp [mapInsert, hk, mapGet]
    · simp [mapInsert, hk, mapGet, mapGet_mapInsert_self rest k r]

theorem mapGet_eq_none_of_not_mem : ∀ (m : List (Key × Record)) (k : Key),
    k ∉ mapKeys m → mapGet m k = none
  | [], _, _ => rfl
  | (k', r') :: rest, k, h => by
    have h1 : ¬ k' = k := by
      intro he
      exact h (by simp [mapKeys, he])
    have h2 : k ∉ mapKeys rest := by
      intro hm
      exact h (by simp [mapKeys] at hm ⊢; exact Or.inr hm)
    simp [mapGet, h1, mapGet_eq_none_of_not_mem rest k h2]

theorem mapGet_mapRemove_self : ∀ (m : List (Key × Record)) (k : Key),
    (mapKeys m).Nodup → mapGet (mapRemove m k) k = none
  | [], _, _ => rfl
  | (k', r') :: rest, k, h => by
    have h' : k' ∉ mapKeys rest ∧ (mapKeys rest).Nodup := by
      simpa [mapKeys] using h
    by_cases hk : k' = k
    · subst hk
      simpa [mapRemove] using mapGet_eq_none_of_not_mem rest k' h'.1
    · simp [mapRemove, hk, mapGet, mapGet_mapRemove_self rest k h'.2]

/-- Behaviour of `Storage.set` on a key that is absent from the map:
it always succeeds; the assigned cas is a sequencer draw when the supplied
cas is 0 and `supplied + 1` otherwise. -/
theorem Storage.set_absent (st : Storage) (k : Key) (r : Record)
    (h : mapGet st.memory k = none) :
    st.set k r =
      (Except.ok { cas := if r.header.cas = 0 then st.cas_id
                          else (r.header.cas + 1) % 2 ^ 64 },
       { memory := mapInsert st.memory k
           { r with header := { r.header with cas :=
               if r.header.cas = 0 then st.cas_id
               else (r.header.cas + 1) % 2 ^ 64 } },
         cas_id := if r.header.cas = 0 then (st.cas_id + 1) % 2 ^ 64
                   else st.cas_id }) := by
  by_cases hc : r.header.cas = 0
  · simp [Storage.set, Storage.get_cas_id, hc]
  · have hpos : 0 < r.header.cas := Nat.pos_of_ne_zero hc
    simp [Storage.set, h, hc, hpos]

/-! ## Claims -/

/-- C1 (amended): for every `set(key, record)` call with `record.header.cas ≠ 0`:
if the store holds a record for the key whose cas equals the supplied cas, or
holds no record for the key, the operation succeeds and assigns
`supplied cas + 1` (mod 2^64) — taken from the supplied cas itself, not drawn
from the CAS Sequencer — and reports that new cas; if the stored cas differs
from the supplied cas, it fails with `KeyExists` and the storage is unchanged. -/
theorem C1_set_conditional (st : Storage) (k : Key) (r : Record)
    (h : r.header.cas ≠ 0) :
    (∀ kv, mapGet st.memory k = some kv → kv.header.cas ≠ r.header.cas →
       st.set k r = (Except.error StorageError.KeyExists, st)) ∧
    (∀ kv, mapGet st.memory k = some kv → kv.header.cas = r.header.cas →
       st.set k r =
         (Except.ok { cas := (r.header.cas + 1) % 2 ^ 64 },
          { st with memory := mapInsert st.memory k { r with header := { r.header with cas := (r.header.cas + 1) % 2 ^ 64 } } })) ∧
    (mapGet st.memory k = none →
       st.set k r =
         (Except.ok { cas := (r.header.cas + 1) % 2 ^ 64 },
          { st with memory := mapInsert st.memory k { r with header := { r.header with cas := (r.header.cas + 1) % 2 ^ 64 } } })) := by
  have hpos : 0 < r.header.cas := Nat.pos_of_ne_zero h
  refine ⟨?_, ?_, ?_⟩
  · intro kv hget hne
    simp [Storage.set, hpos, hget, hne]
  · intro kv hget heq
    simp [Storage.set, hpos, hget, heq]
  · intro hnone
    simp [Storage.set, hpos, hnone]

/-- Witness for C1: with the counter at 9 and `[107] ↦` a record of cas 5, a
conditional set with cas 5 succeeds and stores/reports cas 6. -/
theorem C1_set_conditional_witness :
    ({ memory := [([107], Record.new [65] 5 0 0)], cas_id := 9 } : Storage).set [107]
        (Record.new [66] 5 0 0) =
      (Except.ok { cas := 6 },
       { memory := [([107],
           { header := { timestamp := 0, cas := 6, flags := 0, expiration := 0 },
             value := [66] })],
         cas_id := 9 }) := by
  have h := (C1_set_conditional
      ({ memory := [([107], Record.new [65] 5 0 0)], cas_id := 9 } : Storage)
      [107] (Record.new [66] 5 0 0) (by decide)).2.1 (Record.new [65] 5 0 0) rfl rfl
  exact h.trans rfl

/-- C1 counterexample: with the sequencer counter reading 10 and a stored
record of cas 5, a conditional set supplying cas 5 succeeds reporting cas 6:
the new cas is `supplied + 1`, while the CAS Sequencer was never consulted
(the counter still reads 10 afterwards, and its next value, 10, differs
from the reported 6) — refuting "assigns a freshly sequenced cas (drawn from
the CAS Sequencer)". -/
theorem C1_counterexample :
    ((({ memory := [([107], Record.new [65] 5 0 0)], cas_id := 10 } : Storage).set [107]
         (Record.new [66] 5 0 0)).1 = Except.ok { cas := 6 }) ∧
    ((({ memory := [([107], Record.new [65] 5 0 0)], cas_id := 10 } : Storage).set [107]
         (Record.new [66] 5 0 0)).2.cas_id = 10) ∧
    (6 : Nat) ≠ 10 :=
  ⟨rfl, rfl, by decide⟩

/-- C2 (code bug): expiration is not measured from the write time.  `set`
never consults the clock: `Header::new` pins `timestamp` to 0 and
`touch_record` discards the timer reading, so the clock reading `t0 = 100` at
the moment of the write below cannot enter the record.  The record, written
with expiration 5, is reported `NotFound` by a read at time 50, although
`50 < t0 + 5 = 105`; the code expires it at absolute clock value 5 instead. -/
theorem C2_expiration_ignores_write_time :
    ((Storage.empty.set [107] (Record.new [65] 0 0 5)).2.get 50 [107]).1
      = Except.error StorageError.NotFound := rfl

/-- C3 counterexample: on an absent key, a conditional set with cas 5 succeeds
and stores cas 6 (supplied+1, sequencer untouched); a following unconditional
set on the same key succeeds and stores cas 1 (the counter value).  The per-key
sequence of stored cas values across these two successful writes is 6 then 1,
which is not strictly increasing. -/
theorem C3_counterexample :
    ((Storage.empty.set [107] (Record.new [65] 5 0 0)).1 = Except.ok { cas := 6 }) ∧
    (((Storage.empty.set [107] (Record.new [65] 5 0 0)).2.set [107]
        (Record.new [66] 0 0 0)).1 = Except.ok { cas := 1 }) ∧
    (1 : Nat) < 6 :=
  ⟨rfl, rfl, by decide⟩

/-- C3 (amended): for every key, across successive successful *unconditional*
writes (supplied cas = 0) the assigned cas values are strictly increasing —
each is a fresh sequencer draw — provided the 64-bit counter does not wrap;
a conditional write stores `supplied cas + 1` instead, which can drop the
stored cas below the counter, so monotonicity does not extend to mixed
sequences. -/
theorem C3_unconditional_cas_monotone (st : Storage) (k1 k2 : Key) (r1 r2 : Record)
    (h1 : r1.header.cas = 0) (h2 : r2.header.cas = 0)
    (hw : st.cas_id + 1 < 2 ^ 64) :
    ∃ c1 c2 : Nat,
      (st.set k1 r1).1 = Except.ok { cas := c1 } ∧
      ((st.set k1 r1).2.set k2 r2).1 = Except.ok { cas := c2 } ∧
      c1 < c2 := by
  refine ⟨st.cas_id, (st.cas_id + 1) % 2 ^ 64, ?_, ?_, ?_⟩
  · simp [Storage.set, h1, Storage.get_cas_id]
  · simp [Storage.set, h1, h2, Storage.get_cas_id]
  · rw [Nat.mod_eq_of_lt hw]
    omega

/-- Witness for C3 (amended): two unconditional sets from the fresh store get
cas 1 then cas 2. -/
theorem C3_unconditional_cas_monotone_witness :
    ∃ c1 c2 : Nat,
      (Storage.empty.set [107] (Record.new [65] 0 0 0)).1 = Except.ok { cas := c1 } ∧
      ((Storage.empty.set [107] (Record.new [65] 0 0 0)).2.set [107]
          (Record.new [66] 0 0 0)).1 = Except.ok { cas := c2 } ∧
      c1 < c2 :=
  C3_unconditional_cas_monotone Storage.empty [107] [107]
    (Record.new [65] 0 0 0) (Record.new [66] 0 0 0) rfl rfl (by decide)

/-- C4 (code bug): the conditional-set check and commit are not one atomic
step on an absent key — the source's own FIXME (storage.rs lines 114-117)
records the race between `check_cas` and `insert`.  In the interleaving where
two threads both run the `get_mut` lookup against the empty store (both
observe absence) and then both run the insert, *both* calls report success
with cas 6, refuting "at most one call succeeds".  By contrast, the same two
conditional sets run atomically one after the other make the second fail with
`KeyExists`, which is the behaviour the claim describes. -/
theorem C4_conditional_set_check_insert_race :
    (condSetCheck Storage.empty [107] = none) ∧
    ((condSetCommitAbsent Storage.empty [107] (Record.new [65] 5 0 0)).1 = { cas := 6 }) ∧
    ((condSetCommitAbsent (condSetCommitAbsent Storage.empty [107] (Record.new [65] 5 0 0)).2
        [107] (Record.new [65] 5 0 0)).1 = { cas := 6 }) ∧
    (((Storage.empty.set [107] (Record.new [65] 5 0 0)).2.set [107]
        (Record.new [65] 5 0 0)).1 = Except.error StorageError.KeyExists) :=
  ⟨rfl, rfl, rfl, rfl⟩

/-- C5: no engine operation of the embedding is partial — every failure is an
explicit `Except` value — and in particular `increment` on an existing numeric
value does not fail when `value + delta` exceeds the u64 range: with an
unconditional header (cas 0) it succeeds, the sum wrapping modulo 2^64
(the release-mode semantics of the `+=` on storage.rs line 226). -/
theorem C5_increment_overflow_total (st : Storage) (now : Nat) (k : Key)
    (hdr : Header) (d : DeltaParam) (r : Record) (v : Nat)
    (hget : mapGet st.memory k = some r)
    (hexp : checkIfExpired now r = false)
    (hparse : parse_u64 r.value = some v)
    (hcas : hdr.cas = 0) :
    (st.increment now hdr k d).1 = Except.ok { cas := st.cas_id } ∧
    mapGet (st.increment now hdr k d).2.memory k =
      some { header := { hdr with cas := st.cas_id },
             value := natToDigitBytes ((v + d.delta) % 2 ^ 64) } := by
  constructor
  · simp [Storage.increment, Storage.add_delta, Storage.get_by_key, hget, hexp, hparse,
      Storage.set, hcas, Storage.get_cas_id]
  · simp [Storage.increment, Storage.add_delta, Storage.get_by_key, hget, hexp, hparse,
      Storage.set, hcas, Storage.get_cas_id, mapGet_mapInsert_self]

/-- Witness for C5: incrementing the stored value `u64::MAX` by 1 succeeds and
stores `"0"` (the wrapped sum), rather than failing. -/
theorem C5_increment_overflow_total_witness :
    ((⟨[([107], Record.new (natToDigitBytes (2 ^ 64 - 1)) 0 0 0)], 3⟩ : Storage).increment 0
        (Header.new 0 0 0) [107] ⟨1, 0⟩).1 = Except.ok { cas := 3 } ∧
    mapGet ((⟨[([107], Record.new (natToDigitBytes (2 ^ 64 - 1)) 0 0 0)], 3⟩ : Storage).increment 0
        (Header.new 0 0 0) [107] ⟨1, 0⟩).2.memory [107] =
      some { header := { timestamp := 0, cas := 3, flags := 0, expiration := 0 },
             value := [48] } := by
  have h := C5_increment_overflow_total
      (⟨[([107], Record.new (natToDigitBytes (2 ^ 64 - 1)) 0 0 0)], 3⟩ : Storage) 0
      [107] (Header.new 0 0 0) ⟨1, 0⟩ (Record.new (natToDigitBytes (2 ^ 64 - 1)) 0 0 0)
      (2 ^ 64 - 1) rfl rfl (by decide) rfl
  exact ⟨h.1, h.2.trans rfl⟩

/-- C6 counterexample: `add` of a record carrying cas 5 into the fresh store
with the sequencer counter at 10 succeeds reporting cas 6 = supplied + 1,
with the counter untouched: the stored cas is *not* freshly sequenced
"regardless of the cas value supplied in record.header". -/
theorem C6_counterexample :
    (((⟨[], 10⟩ : Storage).add 0 [107] (Record.new [65] 5 0 0)).1 = Except.ok { cas := 6 }) ∧
    (((⟨[], 10⟩ : Storage).add 0 [107] (Record.new [65] 5 0 0)).2.cas_id = 10) ∧
    (6 : Nat) ≠ 10 :=
  ⟨rfl, rfl, by decide⟩

/-- C6 (amended): `add(key, record)` succeeds iff the key is currently absent
(an expired record counts as absent and is evicted by the existence check),
failing with `KeyExists` otherwise; on success it commits the caller's record
through the ordinary `set` path, so the stored cas is a fresh sequencer draw
exactly when the supplied cas is 0, and `supplied + 1` (mod 2^64) otherwise. -/
theorem C6_add_spec (st : Storage) (now : Nat) (k : Key) (r : Record)
    (hnd : (mapKeys st.memory).Nodup) :
    (∀ kv, mapGet st.memory k = some kv → checkIfExpired now kv = false →
       st.add now k r = (Except.error StorageError.KeyExists, st)) ∧
    (mapGet st.memory k = none →
       (st.add now k r).1 =
         Except.ok { cas := if r.header.cas = 0 then st.cas_id else (r.header.cas + 1) % 2 ^ 64 }) ∧
    (∀ kv, mapGet st.memory k = some kv → checkIfExpired now kv = true →
       (st.add now k r).1 =
         Except.ok { cas := if r.header.cas = 0 then st.cas_id else (r.header.cas + 1) % 2 ^ 64 }) := by
  refine ⟨?_, ?_, ?_⟩
  · intro kv hget hlive
    simp [Storage.add, Storage.get_by_key, hget, hlive]
  · intro hnone
    simp only [Storage.add, Storage.get_by_key, hnone]
    rw [Storage.set_absent st k r hnone]
  · intro kv hget hexp
    have hrm : mapGet (mapRemove st.memory k) k = none :=
      mapGet_mapRemove_self st.memory k hnd
    simp only [Storage.add, Storage.get_by_key, hget, hexp, if_true]
    rw [Storage.set_absent { st with memory := mapRemove st.memory k } k r hrm]

/-- Witness for C6: `add` over an expired record (written with expiration 5,
read at time 100) succeeds; the new record carries a sequencer draw (cas 4,
the counter value) since the supplied cas is 0. -/
theorem C6_add_spec_witness :
    ((⟨[([107], Record.new [65] 7 0 5)], 4⟩ : Storage).add 100 [107]
        (Record.new [66] 0 0 0)).1 = Except.ok { cas := 4 } := by
  have h := (C6_add_spec (⟨[([107], Record.new [65] 7 0 5)], 4⟩ : Storage) 100 [107]
      (Record.new [66] 0 0 0) (by decide)).2.2 (Record.new [65] 7 0 5) rfl rfl
  exact h.trans rfl

/-- Lookup after mapping a per-entry function over the map: the entry found
for a key is the mapped original entry. -/
theorem mapGet_map_entry (f : Record → Record) :
    ∀ (m : List (Key × Record)) (k : Key),
      mapGet (m.map fun kv => (kv.1, f kv.2)) k = (mapGet m k).map f
  | [], _ => rfl
  | (k', r') :: rest, k => by
    by_cases hk : k' = k
    · simp [mapGet, hk]
    · simp [mapGet, hk, mapGet_map_entry f rest k]

/-- C7 counterexample: an increment with the sentinel expiration 0xffffffff on
a key holding an expired record (expiration 5, read at time 50) fails with
NotFound as claimed, but the store is *not* unchanged: the existence check
evicts the expired record, so the key's entry is gone afterwards. -/
theorem C7_counterexample :
    (((⟨[([107], Record.new [65] 3 0 5)], 1⟩ : Storage).increment 50
        (Header.new 0 0 0xffffffff) [107] ⟨1, 42⟩).1 = Except.error StorageError.NotFound) ∧
    (mapGet (⟨[([107], Record.new [65] 3 0 5)], 1⟩ : Storage).memory [107]
        = some (Record.new [65] 3 0 5)) ∧
    (mapGet ((⟨[([107], Record.new [65] 3 0 5)], 1⟩ : Storage).increment 50
        (Header.new 0 0 0xffffffff) [107] ⟨1, 42⟩).2.memory [107] = none) :=
  ⟨rfl, rfl, rfl⟩

/-- C7 (amended): for every increment or decrement on a key that is absent or
expired: if the supplied header's expiration equals 0xffffffff the operation
fails with NotFound and creates nothing — the store is unchanged except that
an expired record under the key is evicted by the existence check; otherwise
a new record is created whose value is the decimal text of the delta's
initial-value parameter, whose expiration is 0 and flags are the caller's,
and whose cas comes from the caller's header as committed by `set`
(a sequencer draw when the caller's cas is 0, `cas + 1` otherwise). -/
theorem C7_delta_on_missing (st : Storage) (now : Nat) (hdr : Header) (k : Key)
    (d : DeltaParam) (inc : Bool) (hnd : (mapKeys st.memory).Nodup) :
    (mapGet st.memory k = none → hdr.expiration = 0xffffffff →
       st.add_delta now hdr k d inc = (Except.error StorageError.NotFound, st)) ∧
    (∀ r, mapGet st.memory k = some r → checkIfExpired now r = true →
       hdr.expiration = 0xffffffff →
       st.add_delta now hdr k d inc =
         (Except.error StorageError.NotFound, { st with memory := mapRemove st.memory k })) ∧
    (mapGet st.memory k = none → hdr.expiration ≠ 0xffffffff →
       (st.add_delta now hdr k d inc).1 =
         Except.ok { cas := if hdr.cas = 0 then st.cas_id else (hdr.cas + 1) % 2 ^ 64 } ∧
       mapGet (st.add_delta now hdr k d inc).2.memory k =
         some (autoCreatedRecord hdr d (if hdr.cas = 0 then st.cas_id else (hdr.cas + 1) % 2 ^ 64))) ∧
    (∀ r, mapGet st.memory k = some r → checkIfExpired now r = true →
       hdr.expiration ≠ 0xffffffff →
       (st.add_delta now hdr k d inc).1 =
         Except.ok { cas := if hdr.cas = 0 then st.cas_id else (hdr.cas + 1) % 2 ^ 64 } ∧
       mapGet (st.add_delta now hdr k d inc).2.memory k =
         some (autoCreatedRecord hdr d (if hdr.cas = 0 then st.cas_id else (hdr.cas + 1) % 2 ^ 64))) := by
  refine ⟨?_, ?_, ?_, ?_⟩
  · intro hnone hsent
    simp [Storage.add_delta, Storage.get_by_key, hnone, hsent]
  · intro r hget hexp hsent
    simp [Storage.add_delta, Storage.get_by_key, hget, hexp, hsent]
  · intro hnone hne
    simp only [Storage.add_delta, Storage.get_by_key, hnone, if_pos hne, ne_eq, hne,
      not_false_iff, if_true]
    rw [Storage.set_absent st k (Record.new (natToDigitBytes d.value) hdr.cas hdr.flags 0) hnone]
    constructor
    · rfl
    · simp [mapGet_mapInsert_self, Record.new, Header.new, autoCreatedRecord]
  · intro r hget hexp hne
    have hrm : mapGet (mapRemove st.memory k) k = none :=
      mapGet_mapRemove_self st.memory k hnd
    simp only [Storage.add_delta, Storage.get_by_key, hget, hexp, if_true, ne_eq, hne,
      not_false_iff]
    rw [Storage.set_absent { st with memory := mapRemove st.memory k } k
        (Record.new (natToDigitBytes d.value) hdr.cas hdr.flags 0) hrm]
    constructor
    · rfl
    · simp [mapGet_mapInsert_self, Record.new, Header.new, autoCreatedRecord]

/-- Witness for C7: incrementing a missing key with a non-sentinel header
(cas 0, flags 9) auto-creates the record with value "42", expiration 0 and a
sequencer cas. -/
theorem C7_delta_on_missing_witness :
    ((⟨[], 5⟩ : Storage).increment 0 (Header.new 0 9 0) [107] ⟨1, 42⟩).1
        = Except.ok { cas := 5 } ∧
    mapGet ((⟨[], 5⟩ : Storage).increment 0 (Header.new 0 9 0) [107] ⟨1, 42⟩).2.memory [107]
        = some { header := { timestamp := 0, cas := 5, flags := 9, expiration := 0 },
                 value := [52, 50] } := by
  have h := (C7_delta_on_missing (⟨[], 5⟩ : Storage) 0 (Header.new 0 9 0) [107]
      ⟨1, 42⟩ true (by decide)).2.2.1 rfl (by decide)
  exact ⟨h.1.trans rfl, h.2.trans rfl⟩

/-- C8 counterexample: the stored value "5" (byte 53) is valid decimal text of
5 and the delta 10 exceeds it, yet `decrement` returns the error KeyExists —
the caller's header carries cas 7, which mismatches the stored cas 1 when the
new value is committed via `set` — and the record keeps its value "5". -/
theorem C8_counterexample :
    (((⟨[([107], Record.new [53] 1 0 0)], 2⟩ : Storage).decrement 0
        (Header.new 7 0 0) [107] ⟨10, 0⟩).1 = Except.error StorageError.KeyExists) ∧
    (((⟨[([107], Record.new [53] 1 0 0)], 2⟩ : Storage).decrement 0
        (Header.new 7 0 0) [107] ⟨10, 0⟩).2 = (⟨[([107], Record.new [53] 1 0 0)], 2⟩ : Storage)) ∧
    parse_u64 [53] = some 5 ∧ (10 : Nat) > 5 :=
  ⟨rfl, rfl, rfl, by decide⟩

/-- C8 (amended): for every decrement on an existing unexpired key whose value
is valid decimal text of a u64 `v`, *provided the supplied header's cas is 0
or equals the stored record's cas*: the operation succeeds and the stored
value becomes exactly the decimal text of 0 when delta > v, and of v - delta
otherwise — it never underflows; with a nonzero mismatching cas the commit
via `set` fails with KeyExists instead (the caller's header replaces the
record's header on storage.rs line 233). -/
theorem C8_decrement_floor (st : Storage) (now : Nat) (hdr : Header) (k : Key)
    (d : DeltaParam) (r : Record) (v : Nat)
    (hget : mapGet st.memory k = some r)
    (hexp : checkIfExpired now r = false)
    (hparse : parse_u64 r.value = some v)
    (hcas : hdr.cas = 0 ∨ hdr.cas = r.header.cas) :
    (st.decrement now hdr k d).1 =
      Except.ok { cas := if hdr.cas = 0 then st.cas_id else (hdr.cas + 1) % 2 ^ 64 } ∧
    mapGet (st.decrement now hdr k d).2.memory k =
      some { header := { hdr with cas := if hdr.cas = 0 then st.cas_id else (hdr.cas + 1) % 2 ^ 64 },
             value := natToDigitBytes (if d.delta > v then 0 else v - d.delta) } := by
  by_cases hc0 : hdr.cas = 0
  · constructor
    · simp [Storage.decrement, Storage.add_delta, Storage.get_by_key, hget, hexp, hparse,
        Storage.set, hc0, Storage.get_cas_id]
    · simp [Storage.decrement, Storage.add_delta, Storage.get_by_key, hget, hexp, hparse,
        Storage.set, hc0, Storage.get_cas_id, mapGet_mapInsert_self]
  · have heq : hdr.cas = r.header.cas := hcas.resolve_left hc0
    have hposr : 0 < r.header.cas := heq ▸ Nat.pos_of_ne_zero hc0
    have hc0r : r.header.cas ≠ 0 := Nat.pos_iff_ne_zero.mp hposr
    constructor
    · simp [Storage.decrement, Storage.add_delta, Storage.get_by_key, hget, hexp, hparse,
        Storage.set, heq, hposr, hc0r]
    · simp [Storage.decrement, Storage.add_delta, Storage.get_by_key, hget, hexp, hparse,
        Storage.set, heq, hposr, hc0r, mapGet_mapInsert_self]

/-- Witness for C8: decrementing the stored "5" by 10 with an unconditional
header floors the value at "0" (byte 48) and succeeds with the sequencer
cas 2. -/
theorem C8_decrement_floor_witness :
    ((⟨[([107], Record.new [53] 1 0 0)], 2⟩ : Storage).decrement 0
        (Header.new 0 0 0) [107] ⟨10, 0⟩).1 = Except.ok { cas := 2 } ∧
    mapGet ((⟨[([107], Record.new [53] 1 0 0)], 2⟩ : Storage).decrement 0
        (Header.new 0 0 0) [107] ⟨10, 0⟩).2.memory [107]
      = some { header := { timestamp := 0, cas := 2, flags := 0, expiration := 0 },
               value := [48] } := by
  have h := C8_decrement_floor (⟨[([107], Record.new [53] 1 0 0)], 2⟩ : Storage) 0
      (Header.new 0 0 0) [107] ⟨10, 0⟩ (Record.new [53] 1 0 0) 5 rfl rfl rfl (Or.inl rfl)
  exact ⟨h.1.trans rfl, h.2.trans rfl⟩

/-- C9: `delete` does not apply the expiration policy.  For a key whose stored
record is expired at the clock reading `now` (nonzero expiration with
timestamp + expiration <= now) but still physically present in the map —
`delete` never reads the clock at all — deleting with cas 0 succeeds and
removes the record rather than returning NotFound, and deleting with a
nonzero mismatching cas returns KeyExists rather than NotFound. -/
theorem C9_delete_ignores_expiration (st : Storage) (k : Key) (r : Record) (now : Nat)
    (hget : mapGet st.memory k = some r)
    (_hexp : checkIfExpired now r = true) :
    (∀ hdr : Header, hdr.cas = 0 →
       st.delete k hdr = (Except.ok (), { st with memory := mapRemove st.memory k })) ∧
    (∀ hdr : Header, hdr.cas ≠ 0 → r.header.cas ≠ hdr.cas →
       st.delete k hdr = (Except.error StorageError.KeyExists, st)) := by
  constructor
  · intro hdr h0
    simp [Storage.delete, hget, h0]
  · intro hdr h0 hne
    simp [Storage.delete, hget, h0, hne]

/-- Witness for C9: deleting the key holding the expired record (expiration 3,
judged at time 100) with cas 0 succeeds and empties the store. -/
theorem C9_delete_ignores_expiration_witness :
    (⟨[([107], Record.new [65] 6 0 3)], 1⟩ : Storage).delete [107] (Header.new 0 0 0)
      = (Except.ok (), (⟨[], 1⟩ : Storage)) := by
  have h := (C9_delete_ignores_expiration (⟨[([107], Record.new [65] 6 0 3)], 1⟩ : Storage)
      [107] (Record.new [65] 6 0 3) 100 rfl rfl).1 (Header.new 0 0 0) rfl
  exact h.trans rfl

/-- C10: `flush(header)` rewrites every present entry's expiration to the
header's expiration while preserving the entry's value bytes, cas, flags and
timestamp (created_at); no entry is added to or removed from the store (the
lookup view and the entry count are preserved) and the sequencer counter is
untouched. -/
theorem C10_flush_spec (st : Storage) (hdr : Header) :
    (st.flush hdr).cas_id = st.cas_id ∧
    (st.flush hdr).memory.length = st.memory.length ∧
    ∀ k : Key, mapGet (st.flush hdr).memory k =
      (mapGet st.memory k).map
        fun r => { r with header := { r.header with expiration := hdr.expiration } } := by
  refine ⟨rfl, by simp [Storage.flush], ?_⟩
  intro k
  exact mapGet_map_entry
    (fun r => { r with header := { r.header with expiration := hdr.expiration } }) st.memory k
